import Mathlib

/-!
# Verification of the botBackend license / quota / warm-up engine

Shallow embedding of the license-gating core of the `botBackend`
repository, translated from the JavaScript source:

* `src/models/BotStatus.js` — the `BotStatus` mongoose model and the
  `UserLicense` mongoose model (schema, methods, statics);
* `src/middleware/license.js` — `licenseMiddleware` and
  `getRequiredPermission`;
* `src/services/LicenseService.js` — `getLicensePermissions`,
  `resetDailyUsage`;
* `src/models/WarmupSettings.js` — `WarmupSettings` schema defaults,
  `getCurrentWeek`, `getCurrentLimits`, `shouldRespectWarmup`;
* `src/routes/bot.js` — the `POST /emergency-stop` handler;
* `src/services/BotService.js` — `BotService.stopBot`;
* `src/services/BotStatusService.js` — `startBot` / `stopBot`.

Conventions of the embedding:

* JavaScript `Date` values are modelled as `Int` milliseconds since the
  epoch; every method that reads `new Date()` takes an explicit
  `now : Int` parameter.
* Object literals used as lookup tables are modelled as Lean functions
  over the literal's own keys (properties inherited from
  `Object.prototype` are not modelled).
* A JavaScript method call on a property that is not defined on the
  model is a `TypeError`; dynamic method lookup is modelled by `Option`
  (`none` = property absent, so the call throws) and thrown exceptions
  by `Except String`.
-/

namespace BotBackend

/-- The `permissions` sub-document of `UserLicenseSchema`
(`src/models/BotStatus.js`, lines 149–174). -/
structure Permissions where
  maxDailyConnections : Nat
  maxDailyMessages : Nat
  maxSearchKeywords : Nat
  canUseAdvancedFeatures : Bool
  canExportData : Bool
  canUseAPI : Bool
  deriving Repr, DecidableEq

/-- The `totalUsage` sub-document of `UserLicenseSchema`
(`src/models/BotStatus.js`, lines 177–194). -/
structure TotalUsage where
  connectionsUsed : Nat
  messagesUsed : Nat
  searchesPerformed : Nat
  totalSessions : Nat
  deriving Repr, DecidableEq

/-- The fields of a `UserLicense` document that the license engine
reads (`UserLicenseSchema`, `src/models/BotStatus.js`).  Timestamps are
milliseconds since the epoch. -/
structure UserLicense where
  userId : String
  licenseType : String
  isActive : Bool
  activatedAt : Int
  expiresAt : Int
  permissions : Permissions
  totalUsage : TotalUsage
  deriving Repr, DecidableEq

/-- `UserLicenseSchema.methods.isLicenseValid`
(`src/models/BotStatus.js`, lines 229–231):
`this.isActive && this.expiresAt > new Date()`. -/
def isLicenseValid (l : UserLicense) (now : Int) : Bool :=
  l.isActive && decide (l.expiresAt > now)

/-- `UserLicenseSchema.methods.isLicenseExpired`
(`src/models/BotStatus.js`, lines 233–235):
`this.expiresAt < new Date()`. -/
def isLicenseExpired (l : UserLicense) (now : Int) : Bool :=
  decide (l.expiresAt < now)

/-- `UserLicenseSchema.methods.canPerformAction`
(`src/models/BotStatus.js`, lines 245–262).  The `switch` has cases for
exactly five action strings; the `default` branch returns `true`. -/
def canPerformAction (l : UserLicense) (now : Int) (actionType : String) : Bool :=
  if !(isLicenseValid l now) then false
  else if actionType = "connection" then
    decide (l.totalUsage.connectionsUsed < l.permissions.maxDailyConnections)
  else if actionType = "message" then
    decide (l.totalUsage.messagesUsed < l.permissions.maxDailyMessages)
  else if actionType = "advanced_features" then
    l.permissions.canUseAdvancedFeatures
  else if actionType = "export_data" then
    l.permissions.canExportData
  else if actionType = "api_access" then
    l.permissions.canUseAPI
  else
    true

/-- `UserLicenseSchema.methods.incrementUsage`
(`src/models/BotStatus.js`, lines 264–280): bumps the counter matching
the action string; any other string leaves the document unchanged. -/
def incrementUsage (l : UserLicense) (actionType : String) : UserLicense :=
  if actionType = "connection" then
    { l with totalUsage := { l.totalUsage with
        connectionsUsed := l.totalUsage.connectionsUsed + 1 } }
  else if actionType = "message" then
    { l with totalUsage := { l.totalUsage with
        messagesUsed := l.totalUsage.messagesUsed + 1 } }
  else if actionType = "search" then
    { l with totalUsage := { l.totalUsage with
        searchesPerformed := l.totalUsage.searchesPerformed + 1 } }
  else if actionType = "session" then
    { l with totalUsage := { l.totalUsage with
        totalSessions := l.totalUsage.totalSessions + 1 } }
  else l

/-- Milliseconds in one day, the `1000 * 60 * 60 * 24` of the source. -/
def msPerDay : Nat := 1000 * 60 * 60 * 24

/-- The trial permission block of
`UserLicenseSchema.statics.createTrialLicense`
(`src/models/BotStatus.js`, lines 303–310). -/
def trialPermissions : Permissions :=
  { maxDailyConnections := 5
    maxDailyMessages := 3
    maxSearchKeywords := 3
    canUseAdvancedFeatures := false
    canExportData := false
    canUseAPI := false }

/-- `UserLicenseSchema.statics.createTrialLicense`
(`src/models/BotStatus.js`, lines 295–312): a fresh document with
`licenseType = 'trial'`, the trial permission block, expiry 30 days
ahead (`expiry.setDate(expiry.getDate() + 30)`, modelled as 30 whole
days of milliseconds), and the schema defaults for the remaining
fields (`isActive = true`, all usage counters 0). -/
def createTrialLicense (userId : String) (now : Int) : UserLicense :=
  { userId := userId
    licenseType := "trial"
    isActive := true
    activatedAt := now
    expiresAt := now + (30 * msPerDay : Nat)
    permissions := trialPermissions
    totalUsage := ⟨0, 0, 0, 0⟩ }

/-! ## LicenseService (`src/services/LicenseService.js`) -/

/-- `LicenseService.getLicensePermissions`
(`src/services/LicenseService.js`, lines 254–291): the fixed
`permissions` table indexed by license type, with the fallback
`permissions[licenseType] || permissions.trial`. -/
def getLicensePermissions (licenseType : String) : Permissions :=
  if licenseType = "trial" then
    { maxDailyConnections := 5, maxDailyMessages := 3, maxSearchKeywords := 3
      canUseAdvancedFeatures := false, canExportData := false, canUseAPI := false }
  else if licenseType = "basic" then
    { maxDailyConnections := 15, maxDailyMessages := 10, maxSearchKeywords := 10
      canUseAdvancedFeatures := true, canExportData := true, canUseAPI := false }
  else if licenseType = "premium" then
    { maxDailyConnections := 50, maxDailyMessages := 25, maxSearchKeywords := 25
      canUseAdvancedFeatures := true, canExportData := true, canUseAPI := true }
  else if licenseType = "enterprise" then
    { maxDailyConnections := 100, maxDailyMessages := 50, maxSearchKeywords := 50
      canUseAdvancedFeatures := true, canExportData := true, canUseAPI := true }
  else
    { maxDailyConnections := 5, maxDailyMessages := 3, maxSearchKeywords := 3
      canUseAdvancedFeatures := false, canExportData := false, canUseAPI := false }

/-- The per-document effect of `LicenseService.resetDailyUsage`
(`src/services/LicenseService.js`, lines 143–163): the `$set` of the
`updateMany` zeroes `totalUsage.connectionsUsed`,
`totalUsage.messagesUsed` and `totalUsage.searchesPerformed` and
touches nothing else (in particular not `totalUsage.totalSessions`). -/
def resetDailyUsageOne (l : UserLicense) : UserLicense :=
  { l with totalUsage := { l.totalUsage with
      connectionsUsed := 0
      messagesUsed := 0
      searchesPerformed := 0 } }

/-- `LicenseService.resetDailyUsage` over the whole `UserLicense`
collection: `updateMany({}, ...)` applies the `$set` to every
document. -/
def resetDailyUsage (db : List UserLicense) : List UserLicense :=
  db.map resetDailyUsageOne

/-! ## WarmupSettings (`src/models/WarmupSettings.js`) -/

/-- One `daily`/`weekly` limits pair of the `customLimits` table. -/
structure WeekLimits where
  daily : Nat
  weekly : Nat
  deriving Repr, DecidableEq

/-- The `customLimits` sub-document of `WarmupSettingsSchema`. -/
structure CustomLimits where
  week1 : WeekLimits
  week2 : WeekLimits
  week3 : WeekLimits
  week4plus : WeekLimits
  deriving Repr, DecidableEq

/-- The fields of a `WarmupSettings` document
(`src/models/WarmupSettings.js`, lines 9–54).  `accountStartDate` is
milliseconds since the epoch. -/
structure WarmupSettings where
  enabled : Bool
  overrideWarmup : Bool
  phase : String
  customLimits : CustomLimits
  accountStartDate : Int
  totalConnections : Nat
  deriving Repr, DecidableEq

/-- A `WarmupSettings` document built purely from the schema's declared
defaults (`src/models/WarmupSettings.js`, lines 9–54): `enabled: true`,
`overrideWarmup: true`, `phase: "auto"`, the default limits table, and
`accountStartDate: Date.now` (the creation instant). -/
def defaultWarmupSettings (now : Int) : WarmupSettings :=
  { enabled := true
    overrideWarmup := true
    phase := "auto"
    customLimits :=
      { week1 := ⟨2, 10⟩, week2 := ⟨3, 15⟩, week3 := ⟨4, 20⟩, week4plus := ⟨5, 25⟩ }
    accountStartDate := now
    totalConnections := 0 }

/-- The `WarmupSettings` document materialized by the lazy-creation
branch of `GET /settings/warmup` (`src/routes/settings.js`), which
passes `enabled: true, overrideWarmup: false, phase: "auto"` explicitly
to the constructor; every other field keeps its schema default. -/
def warmupFromGetRoute (now : Int) : WarmupSettings :=
  { defaultWarmupSettings now with
      enabled := true
      overrideWarmup := false
      phase := "auto" }

/-- `WarmupSettingsSchema.methods.getCurrentWeek`
(`src/models/WarmupSettings.js`, lines 57–68):
`diffDays = Math.ceil(|now - start| / msPerDay)`,
`weekNumber = Math.ceil(diffDays / 7)`, then threshold tests. -/
def getCurrentWeek (w : WarmupSettings) (now : Int) : String :=
  let diffTime : Nat := (now - w.accountStartDate).natAbs
  let diffDays : Nat := (diffTime + (msPerDay - 1)) / msPerDay
  let weekNumber : Nat := (diffDays + 6) / 7
  if weekNumber ≤ 1 then "week1"
  else if weekNumber ≤ 2 then "week2"
  else if weekNumber ≤ 3 then "week3"
  else "week4plus"

/-- `WarmupSettingsSchema.methods.getCurrentLimits`
(`src/models/WarmupSettings.js`, lines 71–74). -/
def getCurrentLimits (w : WarmupSettings) (now : Int) : WeekLimits :=
  let currentWeek := getCurrentWeek w now
  if currentWeek = "week1" then w.customLimits.week1
  else if currentWeek = "week2" then w.customLimits.week2
  else if currentWeek = "week3" then w.customLimits.week3
  else w.customLimits.week4plus

/-- `WarmupSettingsSchema.methods.shouldRespectWarmup`
(`src/models/WarmupSettings.js`, lines 77–79):
`this.enabled && !this.overrideWarmup`. -/
def shouldRespectWarmup (w : WarmupSettings) : Bool :=
  w.enabled && !w.overrideWarmup

/-! ## License middleware (`src/middleware/license.js`) -/

/-- Does the first character list start with the second? -/
def listStartsWith : List Char → List Char → Bool
  | _, [] => true
  | [], _ :: _ => false
  | a :: s, b :: p => (a == b) && listStartsWith s p

/-- Substring containment on character lists, the semantics of
JavaScript `String.prototype.includes`. -/
def listHasSub : List Char → List Char → Bool
  | [], p => p.isEmpty
  | a :: s, p => listStartsWith (a :: s) p || listHasSub s p

/-- `path.includes(pat)` of the middleware, via the underlying
character lists. -/
def strContains (s pat : String) : Bool :=
  listHasSub s.data pat.data

/-- `getRequiredPermission` (`src/middleware/license.js`, lines
86–104).  The `method` argument is accepted and ignored, as in the
source. -/
def getRequiredPermission (path : String) (_method : String) : Option String :=
  if strContains path "/bot/" then some "bot_control"
  else if strContains path "/settings/" then some "manage_settings"
  else if strContains path "/analytics/" then some "view_analytics"
  else none

/-- Dynamic lookup of `userLicense.hasPermission`.
`UserLicenseSchema` (`src/models/BotStatus.js`) defines the methods
`isLicenseValid`, `isLicenseExpired`, `getDaysRemaining`,
`canPerformAction`, `incrementUsage`, `updateLastLogin` and the statics
`findByLicenseKey`, `createTrialLicense`, `upgradeLicense`; no
`hasPermission` is defined anywhere in the repository, so the lookup
yields `undefined` (`none`) and calling it throws a `TypeError`. -/
def hasPermissionMethod : Option (UserLicense → String → Bool) := none

/-- Outcome of one middleware run: an HTTP response sent, or control
passed to `next()`. -/
inductive MwOutcome where
  | res (status : Nat) (message : String)
  | next
  deriving Repr, DecidableEq

/-- `licenseMiddleware` (`src/middleware/license.js`, lines 9–83) for a
request whose license record is already at hand (the source's
`req.user` / database fetch step).  Checks in source order:
1. `!userLicense.isActive` → 403 "License is inactive";
2. `userLicense.isLicenseExpired()` → 403 "License has expired"
   (the source guards the call with `userLicense.isLicenseExpired &&`;
   the method is defined, so the guard passes);
3. for paths containing `/bot/start` or `/bot/`,
   `!canPerformAction('bot_control')` → 403 "Daily bot control limit
   exceeded";
4. a non-null `getRequiredPermission` triggers
   `userLicense.hasPermission(...)`; the method is undefined, the call
   throws, and the `catch` branch answers 500 "License verification
   failed";
5. otherwise `next()`. -/
def licenseMiddleware (l : UserLicense) (now : Int) (path method : String) : MwOutcome :=
  if !l.isActive then .res 403 "License is inactive"
  else if isLicenseExpired l now then .res 403 "License has expired"
  else if (strContains path "/bot/start" || strContains path "/bot/")
          && !(canPerformAction l now "bot_control") then
    .res 403 "Daily bot control limit exceeded"
  else
    match getRequiredPermission path method with
    | some perm =>
      match hasPermissionMethod with
      | none => .res 500 "License verification failed"
      | some f =>
        if !(f l perm) then .res 403 ("Permission denied: " ++ perm ++ " required")
        else .next
    | none => .next

/-! ## BotStatus model and bot services
(`src/models/BotStatus.js`, `src/services/BotService.js`,
`src/routes/bot.js`, `src/services/BotStatusService.js`) -/

/-- A `BotStatus` document (`BotStatusSchema`,
`src/models/BotStatus.js`, lines 3–33). -/
structure BotStatusRec where
  userID : String
  license : String
  botStatus : String
  lastActivity : Int
  isRunning : Bool
  deriving Repr, DecidableEq

namespace BotStatusModel

/-- A `BotStatus` document created with only `userID` given: the schema
defaults `license: "trial"`, `botStatus: "disable"`,
`isRunning: false`, `lastActivity: Date.now`. -/
def defaultRec (userID : String) (now : Int) : BotStatusRec :=
  { userID := userID, license := "trial", botStatus := "disable"
    lastActivity := now, isRunning := false }

/-- `BotStatusSchema.statics.getBotStatus`
(`src/models/BotStatus.js`, lines 64–70): `findOne`, creating a
default document when none exists.  `db` is the user's stored
document, if any. -/
def getBotStatus (userID : String) (now : Int) (db : Option BotStatusRec) : BotStatusRec :=
  db.getD (defaultRec userID now)

/-- `BotStatusSchema.statics.enableBot`
(`src/models/BotStatus.js`, lines 36–50): upsert setting
`botStatus: "enable"`, the given license, `isRunning: true` and a
fresh `lastActivity`. -/
def enableBot (userID license : String) (now : Int) (db : Option BotStatusRec) : BotStatusRec :=
  { getBotStatus userID now db with
      botStatus := "enable", license := license, isRunning := true, lastActivity := now }

/-- `BotStatusSchema.statics.disableBot`
(`src/models/BotStatus.js`, lines 52–62): upsert setting
`botStatus: "disable"`, `isRunning: false` and a fresh
`lastActivity`. -/
def disableBot (userID : String) (now : Int) (db : Option BotStatusRec) : BotStatusRec :=
  { getBotStatus userID now db with
      botStatus := "disable", isRunning := false, lastActivity := now }

end BotStatusModel

namespace BotService

/-- `BotService.stopBot` (`src/services/BotService.js`, lines
129–181).  Rejects a missing/`"default"` user id (JavaScript
`!userId` is modelled by the empty string), loads the current status,
throws `"No bot running for this user"` when the bot is already
disabled and not running, and otherwise disables the bot and returns
the updated document. -/
def stopBot (userId : String) (now : Int) (db : Option BotStatusRec) :
    Except String BotStatusRec :=
  if userId = "" || userId = "default" then
    .error "Valid userId required for bot operations"
  else
    let currentStatus := BotStatusModel.getBotStatus userId now db
    if currentStatus.botStatus = "disable" && !currentStatus.isRunning then
      .error "No bot running for this user"
    else
      .ok (BotStatusModel.disableBot userId now (some currentStatus))

end BotService

/-- Result of a `src/routes/bot.js` handler: either an error response
with an HTTP status and message, or a 200 success carrying the updated
bot status document. -/
inductive BotRouteResult where
  | err (status : Nat) (message : String)
  | ok (data : BotStatusRec)
  deriving Repr, DecidableEq

/-- The `POST /emergency-stop` handler (`src/routes/bot.js`, lines
144–181), with the bot service present.  After the authentication
check on `req.user?.userId` it calls `botService.stopBot(userId)`
directly — no `canPerformAction` / license / quota check of any kind —
answering 200 on success and 400 when `stopBot` throws.  `user` is the
authenticated principal's full license record (`req.user`); note that
the handler never reads anything from it except `userId`. -/
def emergencyStopRoute (user : UserLicense) (now : Int) (db : Option BotStatusRec) :
    BotRouteResult :=
  if user.userId = "" then .err 401 "User authentication required"
  else
    match BotService.stopBot user.userId now db with
    | .error _ => .err 400 "Failed to emergency stop bot"
    | .ok updated => .ok updated

/-- Dynamic lookup of the static `BotStatus.setActive` used by
`BotStatusService.startBot` (`src/services/BotStatusService.js`,
line 22).  `BotStatusSchema.statics` (`src/models/BotStatus.js`) defines
only `enableBot`, `disableBot` and `getBotStatus`; `setActive` is
defined nowhere, so the lookup yields `undefined` (`none`) and the
call throws a `TypeError`. -/
def setActiveMethod : Option (String → Option BotStatusRec → BotStatusRec) := none

/-- Dynamic lookup of the static `BotStatus.setInactive` used by
`BotStatusService.stopBot` (`src/services/BotStatusService.js`,
line 50); like `setActiveMethod`, it is defined nowhere in the model,
so the lookup yields `none`. -/
def setInactiveMethod :
    Option (String → Option String → Option BotStatusRec → BotStatusRec) := none

namespace BotStatusService

/-- `BotStatusService.startBot` (`src/services/BotStatusService.js`,
lines 20–45): calls `BotStatus.setActive(userId)`; on success it would
emit a status snapshot and return the updated document, and the `catch`
branch logs and rethrows.  The thrown `TypeError` is modelled as the
error message below. -/
def startBot (userId : String) (db : Option BotStatusRec) : Except String BotStatusRec :=
  match setActiveMethod with
  | none => .error "BotStatus.setActive is not a function"
  | some f => .ok (f userId db)

/-- `BotStatusService.stopBot` (`src/services/BotStatusService.js`,
lines 48–73): calls `BotStatus.setInactive(userId, errorMessage)`; on
success it would emit a status snapshot and return the updated
document, and the `catch` branch logs and rethrows. -/
def stopBot (userId : String) (errorMessage : Option String)
    (db : Option BotStatusRec) : Except String BotStatusRec :=
  match setInactiveMethod with
  | none => .error "BotStatus.setInactive is not a function"
  | some f => .ok (f userId errorMessage db)

end BotStatusService

/-! ## Concrete records used to exercise the definitions -/

/-- A trial license (the permission block of `createTrialLicense`) that
is active and unexpired at `now = 0`, with every daily counter exactly
at its cap (`connectionsUsed = 5`, `messagesUsed = 3`,
`searchesPerformed = 3`) and two lifetime sessions. -/
def trialAtCap : UserLicense :=
  { userId := "u1"
    licenseType := "trial"
    isActive := true
    activatedAt := -1000
    expiresAt := 1000000
    permissions := trialPermissions
    totalUsage := ⟨5, 3, 3, 2⟩ }

/-- A trial license that is still marked active but whose `expiresAt`
lies one second (1000 ms) before `now = 0`, with exhausted daily
counters. -/
def expiredExhausted : UserLicense :=
  { userId := "u2"
    licenseType := "trial"
    isActive := true
    activatedAt := -5000
    expiresAt := -1000
    permissions := trialPermissions
    totalUsage := ⟨5, 3, 3, 9⟩ }

/-- A trial license that is active and whose `expiresAt` equals the
current instant exactly (`expiresAt = now = 0`): it passes the
middleware's `isActive` and `isLicenseExpired` checks, yet
`isLicenseValid` is already false. -/
def expiresRightNow : UserLicense :=
  { userId := "u3"
    licenseType := "trial"
    isActive := true
    activatedAt := -5000
    expiresAt := 0
    permissions := trialPermissions
    totalUsage := ⟨0, 0, 0, 0⟩ }

/-- A `BotStatus` document for a running bot
(`botStatus = "enable"`, `isRunning = true`). -/
def runningBot : BotStatusRec :=
  { userID := "u2", license := "trial", botStatus := "enable"
    lastActivity := -2000, isRunning := true }

/-! ## Theorems

Helper lemmas about `incrementUsage`, then one theorem per claim
(with its witness or counterexample), in claim order. -/

/-- One `incrementUsage` call with action `"connection"` bumps exactly
the `connectionsUsed` counter. -/
theorem incrementUsage_connection_step (l : UserLicense) :
    incrementUsage l "connection"
      = { l with totalUsage := { l.totalUsage with
            connectionsUsed := l.totalUsage.connectionsUsed + 1 } } := by
  simp [incrementUsage]

/-- `n` iterated `incrementUsage "connection"` calls leave the
permission block unchanged and add `n` to `connectionsUsed`. -/
theorem incrementUsage_connection_iterate (l : UserLicense) (n : Nat) :
    ((fun x => incrementUsage x "connection")^[n] l).permissions = l.permissions ∧
    ((fun x => incrementUsage x "connection")^[n] l).totalUsage.connectionsUsed
      = l.totalUsage.connectionsUsed + n := by
  induction n with
  | zero => simp
  | succ k ih =>
    obtain ⟨ih1, ih2⟩ := ih
    rw [Function.iterate_succ_apply']
    show (incrementUsage _ "connection").permissions = _ ∧
      (incrementUsage _ "connection").totalUsage.connectionsUsed = _
    rw [incrementUsage_connection_step]
    refine ⟨by simpa using ih1, ?_⟩
    show ((fun x => incrementUsage x "connection")^[k] l).totalUsage.connectionsUsed + 1
      = l.totalUsage.connectionsUsed + (k + 1)
    omega

/-- One `incrementUsage` call with action `"message"` bumps exactly
the `messagesUsed` counter. -/
theorem incrementUsage_message_step (l : UserLicense) :
    incrementUsage l "message"
      = { l with totalUsage := { l.totalUsage with
            messagesUsed := l.totalUsage.messagesUsed + 1 } } := by
  simp [incrementUsage]

/-- `n` iterated `incrementUsage "message"` calls leave the permission
block unchanged and add `n` to `messagesUsed`. -/
theorem incrementUsage_message_iterate (l : UserLicense) (n : Nat) :
    ((fun x => incrementUsage x "message")^[n] l).permissions = l.permissions ∧
    ((fun x => incrementUsage x "message")^[n] l).totalUsage.messagesUsed
      = l.totalUsage.messagesUsed + n := by
  induction n with
  | zero => simp
  | succ k ih =>
    obtain ⟨ih1, ih2⟩ := ih
    rw [Function.iterate_succ_apply']
    show (incrementUsage _ "message").permissions = _ ∧
      (incrementUsage _ "message").totalUsage.messagesUsed = _
    rw [incrementUsage_message_step]
    refine ⟨by simpa using ih1, ?_⟩
    show ((fun x => incrementUsage x "message")^[k] l).totalUsage.messagesUsed + 1
      = l.totalUsage.messagesUsed + (k + 1)
    omega

/-- Counterexample for claim C1: `'search'` is claimed to be a quota
action denied once its remaining quota is 0, but `canPerformAction`
has no `'search'` case — a valid trial license whose
`searchesPerformed` already equals `maxSearchKeywords` (remaining
quota 0 on any reading) is still allowed `'search'`. -/
theorem claim_C1_counterexample :
    trialAtCap.totalUsage.searchesPerformed = trialAtCap.permissions.maxSearchKeywords ∧
    isLicenseValid trialAtCap 0 = true ∧
    canPerformAction trialAtCap 0 "search" = true := by
  refine ⟨rfl, by decide, by decide⟩

/-- Claim C1 as amended: for the `'connection'` and `'message'` quota
kinds, `canPerformAction` denies the action once the used counter has
reached the effective cap — in particular immediately after the N-th
`incrementUsage` call where N equals the cap — while `'search'` falls
into the `default` branch and is always allowed for a valid license. -/
theorem claim_C1_amended_quota_denial (l : UserLicense) (now : Int) :
    (l.permissions.maxDailyConnections ≤ l.totalUsage.connectionsUsed →
      canPerformAction l now "connection" = false) ∧
    (l.permissions.maxDailyMessages ≤ l.totalUsage.messagesUsed →
      canPerformAction l now "message" = false) ∧
    canPerformAction
      ((fun x => incrementUsage x "connection")^[l.permissions.maxDailyConnections] l)
      now "connection" = false ∧
    canPerformAction
      ((fun x => incrementUsage x "message")^[l.permissions.maxDailyMessages] l)
      now "message" = false ∧
    (isLicenseValid l now = true → canPerformAction l now "search" = true) := by
  refine ⟨?_, ?_, ?_, ?_, ?_⟩
  · intro h
    cases hv : isLicenseValid l now
    · simp [canPerformAction, hv]
    · simp [canPerformAction, hv]
      omega
  · intro h
    cases hv : isLicenseValid l now
    · simp [canPerformAction, hv]
    · simp [canPerformAction, hv]
      omega
  · obtain ⟨hp, hc⟩ :=
      incrementUsage_connection_iterate l l.permissions.maxDailyConnections
    have hp' :
        ((fun x => incrementUsage x "connection")^[l.permissions.maxDailyConnections]
          l).permissions.maxDailyConnections
        = l.permissions.maxDailyConnections := by rw [hp]
    cases hv : isLicenseValid
        ((fun x => incrementUsage x "connection")^[l.permissions.maxDailyConnections] l) now
    · simp [canPerformAction, hv]
    · simp [canPerformAction, hv]
      omega
  · obtain ⟨hp, hc⟩ :=
      incrementUsage_message_iterate l l.permissions.maxDailyMessages
    have hp' :
        ((fun x => incrementUsage x "message")^[l.permissions.maxDailyMessages]
          l).permissions.maxDailyMessages
        = l.permissions.maxDailyMessages := by rw [hp]
    cases hv : isLicenseValid
        ((fun x => incrementUsage x "message")^[l.permissions.maxDailyMessages] l) now
    · simp [canPerformAction, hv]
    · simp [canPerformAction, hv]
      omega
  · intro hv
    simp [canPerformAction, hv]

/-- Witness for claim C1 at the trial license with every counter at
its cap (`maxDailyConnections = 5`, `connectionsUsed = 5`, …). -/
theorem claim_C1_witness :
    canPerformAction trialAtCap 0 "connection" = false ∧
    canPerformAction trialAtCap 0 "message" = false ∧
    canPerformAction
      ((fun x => incrementUsage x "connection")^[trialAtCap.permissions.maxDailyConnections]
        trialAtCap) 0 "connection" = false ∧
    canPerformAction
      ((fun x => incrementUsage x "message")^[trialAtCap.permissions.maxDailyMessages]
        trialAtCap) 0 "message" = false ∧
    canPerformAction trialAtCap 0 "search" = true := by
  have h := claim_C1_amended_quota_denial trialAtCap 0
  exact ⟨h.1 (by decide), h.2.1 (by decide), h.2.2.1, h.2.2.2.1, h.2.2.2.2 (by decide)⟩

/-- Claim C2: a license that is inactive or whose `expiresAt` is at or
before `now` is never allowed any action by `canPerformAction`,
regardless of the usage counters; and a still-active license whose
`expiresAt` lies one second in the past is denied by the middleware
with the expired-license response. -/
theorem claim_C2_inactive_or_expired_never_authorized
    (l : UserLicense) (now : Int) (action path method : String)
    (h : l.isActive = false ∨ l.expiresAt ≤ now) :
    canPerformAction l now action = false ∧
    (l.isActive = true → l.expiresAt = now - 1000 →
      licenseMiddleware l now path method = .res 403 "License has expired") := by
  have hval : isLicenseValid l now = false := by
    rcases h with h | h
    · simp [isLicenseValid, h]
    · have : ¬ (l.expiresAt > now) := by omega
      simp [isLicenseValid, this]
  constructor
  · simp [canPerformAction, hval]
  · intro hAct hExp
    have hexp : isLicenseExpired l now = true := by
      have : l.expiresAt < now := by omega
      simp [isLicenseExpired, this]
    simp [licenseMiddleware, hAct, hexp]

/-- Witness for claim C2: an active license expired one second before
`now = 0` is denied `'connection'` and gets the 403 expired
response. -/
theorem claim_C2_witness :
    canPerformAction expiredExhausted 0 "connection" = false ∧
    licenseMiddleware expiredExhausted 0 "/bot/start" "POST"
      = .res 403 "License has expired" := by
  have h := claim_C2_inactive_or_expired_never_authorized expiredExhausted 0
    "connection" "/bot/start" "POST" (Or.inr (by decide))
  exact ⟨h.1, h.2 rfl (by decide)⟩

/-- Claim C3: an unrecognized tier string falls back to the trial
permission record — `permissions[licenseType] || permissions.trial`
yields `permissions.trial` whenever `licenseType` is none of the four
table keys. -/
theorem claim_C3_unknown_tier_falls_back_to_trial (t : String)
    (h1 : t ≠ "trial") (h2 : t ≠ "basic") (h3 : t ≠ "premium")
    (h4 : t ≠ "enterprise") :
    getLicensePermissions t = getLicensePermissions "trial" := by
  simp [getLicensePermissions, h1, h2, h3, h4]

/-- Witness for claim C3 at the concrete unknown tier `"gold"`. -/
theorem claim_C3_witness :
    getLicensePermissions "gold" = getLicensePermissions "trial" :=
  claim_C3_unknown_tier_falls_back_to_trial "gold"
    (by decide) (by decide) (by decide) (by decide)

/-- Claim C4: for a valid license, `canPerformAction` answers `true`
for every action string outside the five enumerated `switch` cases —
the `default` branch allows any unlisted action kind. -/
theorem claim_C4_default_branch_allows_unlisted_actions
    (l : UserLicense) (now : Int) (a : String)
    (hv : isLicenseValid l now = true)
    (h1 : a ≠ "connection") (h2 : a ≠ "message")
    (h3 : a ≠ "advanced_features") (h4 : a ≠ "export_data")
    (h5 : a ≠ "api_access") :
    canPerformAction l now a = true := by
  simp [canPerformAction, hv, h1, h2, h3, h4, h5]

/-- Witness for claim C4: a valid trial license with every daily
counter at its cap is still allowed the unlisted kinds `"search"` and
`"bot_control"`. -/
theorem claim_C4_witness :
    canPerformAction trialAtCap 0 "search" = true ∧
    canPerformAction trialAtCap 0 "bot_control" = true :=
  ⟨claim_C4_default_branch_allows_unlisted_actions trialAtCap 0 "search"
      (by decide) (by decide) (by decide) (by decide) (by decide) (by decide),
    claim_C4_default_branch_allows_unlisted_actions trialAtCap 0 "bot_control"
      (by decide) (by decide) (by decide) (by decide) (by decide) (by decide)⟩

/-- Claim C5: the warm-up phase is a pure function of the whole days
elapsed since `accountStartDate`: days 0–7 give `week1`, 8–14 give
`week2`, 15–21 give `week3`, and more than 21 days gives
`week4plus`. -/
theorem claim_C5_warmup_phase_pure_function_of_days
    (w : WarmupSettings) (d : Nat) :
    (d ≤ 7 → getCurrentWeek w (w.accountStartDate + (d * msPerDay : Nat)) = "week1") ∧
    (8 ≤ d → d ≤ 14 →
      getCurrentWeek w (w.accountStartDate + (d * msPerDay : Nat)) = "week2") ∧
    (15 ≤ d → d ≤ 21 →
      getCurrentWeek w (w.accountStartDate + (d * msPerDay : Nat)) = "week3") ∧
    (22 ≤ d →
      getCurrentWeek w (w.accountStartDate + (d * msPerDay : Nat)) = "week4plus") := by
  have habs : ((w.accountStartDate + ((d * msPerDay : Nat) : Int)) - w.accountStartDate).natAbs
      = d * msPerDay := by
    have h1 : (w.accountStartDate + ((d * msPerDay : Nat) : Int)) - w.accountStartDate
        = ((d * msPerDay : Nat) : Int) := by ring
    rw [h1, Int.natAbs_ofNat]
  have hdd : (d * msPerDay + (msPerDay - 1)) / msPerDay = d := by
    have : msPerDay = 86400000 := by norm_num [msPerDay]
    rw [this]
    omega
  refine ⟨?_, ?_, ?_, ?_⟩
  · intro hd
    simp only [getCurrentWeek, habs, hdd]
    rw [if_pos (by omega)]
  · intro hd1 hd2
    simp only [getCurrentWeek, habs, hdd]
    rw [if_neg (by omega), if_pos (by omega)]
  · intro hd1 hd2
    simp only [getCurrentWeek, habs, hdd]
    rw [if_neg (by omega), if_neg (by omega), if_pos (by omega)]
  · intro hd
    simp only [getCurrentWeek, habs, hdd]
    rw [if_neg (by omega), if_neg (by omega), if_neg (by omega)]

/-- Witness for claim C5 at elapsed days 0, 10, 20, 22, matching the
spec's four sample points. -/
theorem claim_C5_witness :
    getCurrentWeek (defaultWarmupSettings 0)
      ((defaultWarmupSettings 0).accountStartDate + (0 * msPerDay : Nat)) = "week1" ∧
    getCurrentWeek (defaultWarmupSettings 0)
      ((defaultWarmupSettings 0).accountStartDate + (10 * msPerDay : Nat)) = "week2" ∧
    getCurrentWeek (defaultWarmupSettings 0)
      ((defaultWarmupSettings 0).accountStartDate + (20 * msPerDay : Nat)) = "week3" ∧
    getCurrentWeek (defaultWarmupSettings 0)
      ((defaultWarmupSettings 0).accountStartDate + (22 * msPerDay : Nat)) = "week4plus" :=
  ⟨(claim_C5_warmup_phase_pure_function_of_days (defaultWarmupSettings 0) 0).1 (by decide),
    (claim_C5_warmup_phase_pure_function_of_days (defaultWarmupSettings 0) 10).2.1
      (by decide) (by decide),
    (claim_C5_warmup_phase_pure_function_of_days (defaultWarmupSettings 0) 20).2.2.1
      (by decide) (by decide),
    (claim_C5_warmup_phase_pure_function_of_days (defaultWarmupSettings 0) 22).2.2.2
      (by decide)⟩

/-- Counterexample for claim C6: a `WarmupSettings` document built from
the schema's declared defaults has `overrideWarmup = true`
(`src/models/WarmupSettings.js`, line 17), not `false`, and
`shouldRespectWarmup` on it answers `false`, not `true`. -/
theorem claim_C6_counterexample :
    (defaultWarmupSettings 0).overrideWarmup = true ∧
    shouldRespectWarmup (defaultWarmupSettings 0) = false :=
  ⟨rfl, rfl⟩

/-- Claim C6 as amended: the schema default is `overrideWarmup = true`,
so a state built from schema defaults does not respect warm-up
pacing; the lazy-creation branch of `GET /settings/warmup` instead
passes `overrideWarmup: false` explicitly, and a state created there
does respect warm-up pacing. -/
theorem claim_C6_amended_schema_default_overrides_warmup (now : Int) :
    (defaultWarmupSettings now).overrideWarmup = true ∧
    shouldRespectWarmup (defaultWarmupSettings now) = false ∧
    (warmupFromGetRoute now).overrideWarmup = false ∧
    shouldRespectWarmup (warmupFromGetRoute now) = true :=
  ⟨rfl, rfl, rfl, rfl⟩

/-- Claim C7: the daily reset is idempotent — running it twice equals
running it once — every daily counter is 0 afterwards, and the
lifetime counter `totalUsage.totalSessions` of every principal is
unchanged by any call. -/
theorem claim_C7_reset_idempotent_and_preserves_lifetime
    (db : List UserLicense) :
    resetDailyUsage (resetDailyUsage db) = resetDailyUsage db ∧
    (resetDailyUsage db).map (fun l => l.totalUsage.totalSessions)
      = db.map (fun l => l.totalUsage.totalSessions) ∧
    (resetDailyUsage db).map (fun l =>
        (l.totalUsage.connectionsUsed, l.totalUsage.messagesUsed,
          l.totalUsage.searchesPerformed))
      = db.map (fun _ => (0, 0, 0)) := by
  refine ⟨?_, ?_, ?_⟩ <;>
    · induction db with
      | nil => rfl
      | cons x xs ih => simp_all [resetDailyUsage, resetDailyUsageOne]

/-- Claim C8: `POST /emergency-stop` performs no authorization check:
for every authenticated principal — the license record `user` is
arbitrary, in particular it may be expired or quota-exhausted — whose
bot is running (`botStatus = "enable"`, `isRunning = true`), the route
succeeds and the stored bot status transitions to disabled and not
running. -/
theorem claim_C8_emergency_stop_bypasses_authorization
    (user : UserLicense) (now : Int) (bot : BotStatusRec)
    (h1 : user.userId ≠ "") (h2 : user.userId ≠ "default")
    (h3 : bot.botStatus = "enable") (h4 : bot.isRunning = true) :
    emergencyStopRoute user now (some bot)
      = .ok { bot with botStatus := "disable", isRunning := false, lastActivity := now } := by
  simp [emergencyStopRoute, BotService.stopBot, BotStatusModel.getBotStatus,
    BotStatusModel.disableBot, h1, h2, h3, h4]

/-- Witness for claim C8: a principal whose license is expired,
invalid and quota-exhausted still emergency-stops a running bot. -/
theorem claim_C8_witness :
    canPerformAction expiredExhausted 0 "bot_control" = false ∧
    isLicenseValid expiredExhausted 0 = false ∧
    emergencyStopRoute expiredExhausted 0 (some runningBot)
      = .ok { runningBot with botStatus := "disable", isRunning := false, lastActivity := 0 } :=
  ⟨by decide, by decide,
    claim_C8_emergency_stop_bypasses_authorization expiredExhausted 0 runningBot
      (by decide) (by decide) rfl rfl⟩

/-- Counterexample for claim C9: on the permission-gated path
`/bot/start`, a license that passes the middleware's active and expiry
checks (`isActive = true`, `isLicenseExpired = false`, with
`expiresAt = now` exactly) is answered 403 "Daily bot control limit
exceeded" by the bot-quota branch — not 500, and without
`hasPermission` ever being called. -/
theorem claim_C9_counterexample :
    expiresRightNow.isActive = true ∧
    isLicenseExpired expiresRightNow 0 = false ∧
    (getRequiredPermission "/bot/start" "POST").isSome = true ∧
    licenseMiddleware expiresRightNow 0 "/bot/start" "POST"
      = .res 403 "Daily bot control limit exceeded" := by
  refine ⟨rfl, by decide, by decide, by decide⟩

/-- Claim C9 as amended: for every permission-gated path, a license
passing the active and expiry checks never reaches `next()`; and
whenever the `/bot/` quota branch does not fire (the path has no
`/bot/` segment, or `canPerformAction('bot_control')` passes), the
middleware reaches the undefined `userLicense.hasPermission`, the call
throws, and the catch branch answers 500 "License verification
failed".  The one exception, per the counterexample, is a `/bot/` path
with `expiresAt = now` exactly, answered 403 by the quota branch. -/
theorem claim_C9_amended_gated_paths_get_500
    (l : UserLicense) (now : Int) (path method : String)
    (hAct : l.isActive = true)
    (hExp : isLicenseExpired l now = false)
    (hPerm : (getRequiredPermission path method).isSome = true) :
    licenseMiddleware l now path method ≠ MwOutcome.next ∧
    ((strContains path "/bot/start" = true ∨ strContains path "/bot/" = true →
        canPerformAction l now "bot_control" = true) →
      licenseMiddleware l now path method = .res 500 "License verification failed") := by
  obtain ⟨perm, hperm⟩ := Option.isSome_iff_exists.mp hPerm
  constructor
  · cases hq : ((strContains path "/bot/start" || strContains path "/bot/")
        && !(canPerformAction l now "bot_control"))
    · simp [licenseMiddleware, hAct, hExp, hq, hperm, hasPermissionMethod]
    · simp [licenseMiddleware, hAct, hExp, hq, hperm, hasPermissionMethod]
  · intro hBot
    have hq : ((strContains path "/bot/start" || strContains path "/bot/")
        && !(canPerformAction l now "bot_control")) = false := by
      cases hb : (strContains path "/bot/start" || strContains path "/bot/")
      · simp
      · have := hBot (by simpa using hb)
        simp [this]
    simp [licenseMiddleware, hAct, hExp, hq, hperm, hasPermissionMethod]

/-- Witness for claim C9: a valid license on the gated path
`/settings/warmup` gets the 500 response. -/
theorem claim_C9_witness :
    licenseMiddleware trialAtCap 0 "/settings/warmup" "GET"
      = .res 500 "License verification failed" :=
  (claim_C9_amended_gated_paths_get_500 trialAtCap 0 "/settings/warmup" "GET"
    rfl (by decide) (by decide)).2 (by decide)

/-- Claim C10: `BotStatusService.startBot` and
`BotStatusService.stopBot` dispatch to the statics
`BotStatus.setActive` / `BotStatus.setInactive`, which the `BotStatus`
model never defines (its statics are `enableBot`, `disableBot`,
`getBotStatus`); so for every user id and every stored state both
operations take the error branch and throw, updating nothing and
emitting no status snapshot. -/
theorem claim_C10_bot_status_service_always_throws
    (userId : String) (errorMessage : Option String)
    (db : Option BotStatusRec) :
    BotStatusService.startBot userId db
      = .error "BotStatus.setActive is not a function" ∧
    BotStatusService.stopBot userId errorMessage db
      = .error "BotStatus.setInactive is not a function" :=
  ⟨rfl, rfl⟩

end BotBackend
